import Mathlib

/-!
Verification of the BatteryGuardian daemon (src/battery_daemon.py).

The development shallowly embeds the two logic-bearing pieces of the
program:

* `battery_info` (lines 121-189): the aggregator that turns a list of
  per-device battery readings into one canonical (percent, status) pair.
  Python floats are modelled as rationals; Python's banker's rounding
  (`round`) is modelled by `pyRound`.
* the hysteresis block of `one_iteration` (lines 322-351): extracted as
  the pure function `decideStep` over the raw persisted token read by
  `read_state`, together with the slot effect (`applySlot`) and the
  effectful wrapper `one_iteration`.  `write_state` (lines 271-277) has
  no exception handler in the source, so a failing write is modelled as
  a propagating `IterError.writeFailed`; `read_state` (264-269) catches
  everything and yields "none", modelled by reading an `Option String`
  slot; `clear_state` (279-283) swallows all errors and so never fails.
* `daemon_loop` (lines 353-378): a `try`/`finally` around the poll loop
  with no `except`, so an error escaping `one_iteration` terminates the
  loop; errors raised by `battery_info` are caught inside
  `one_iteration` (lines 308-320) and skip the cycle.
-/

namespace BatteryGuardian

/-- One per detected battery device at poll time, after the DeviceReader
boundary has merged `energy_now`/`charge_now` and `energy_full`/`charge_full`
and read `capacity` and `status` (missing or unreadable files give `none`). -/
structure DeviceReading where
  energyNow : Option ℚ
  energyFull : Option ℚ
  capacityPercent : Option Int
  status : Option String
deriving DecidableEq, Repr

/-- Python's built-in `round` on a float, at one argument: round to the
nearest integer, ties to the even integer. -/
def pyRound (q : ℚ) : Int :=
  let f := ⌊q⌋
  if q - f < 1/2 then f
  else if 1/2 < q - f then f + 1
  else if f % 2 = 0 then f else f + 1

/-- The only error `battery_info` raises (line 128:
`RuntimeError("No battery devices found ...")`). -/
inductive BatteryError
  | noBatteryFound
deriving DecidableEq, Repr

/-- Accumulator for the per-device loop of `battery_info` (lines 130-169):
`total_energy`, `total_capacity_weight`, `statuses`, `capacities`. -/
structure AggAcc where
  totalEnergy : ℚ
  totalWeight : ℚ
  statuses : List String
  capacities : List Int
deriving DecidableEq, Repr

/-- Lines 161-169 of `battery_info`: the `elif capacity is not None`
branch and the ultimate fallback, taken when the energy pair is absent
or `energy_full` is zero (falsy). -/
def aggFallback (acc : AggAcc) (sts : List String) (r : DeviceReading) : AggAcc :=
  match r.capacityPercent with
  | some c =>
      { totalEnergy := acc.totalEnergy + (c : ℚ)
        totalWeight := acc.totalWeight + 1
        statuses := sts
        capacities := acc.capacities ++ [c] }
  | none =>
      { totalEnergy := acc.totalEnergy
        totalWeight := acc.totalWeight + 1
        statuses := sts
        capacities := acc.capacities }

/-- One pass of the device loop of `battery_info` (lines 135-169).
The status is appended when present and non-empty (`if status:`); the
energy branch requires `energy_now is not None and energy_full` — in
Python `energy_full` is truthy exactly when present and non-zero. -/
def aggDevice (acc : AggAcc) (r : DeviceReading) : AggAcc :=
  let sts : List String :=
    match r.status with
    | some s => if s = "" then acc.statuses else acc.statuses ++ [s]
    | none => acc.statuses
  match r.energyNow, r.energyFull with
  | some en, some ef =>
      if ef ≠ 0 then
        { totalEnergy := acc.totalEnergy + (en / ef * 100) * ef
          totalWeight := acc.totalWeight + ef
          statuses := sts
          capacities := acc.capacities }
      else aggFallback acc sts r
  | _, _ => aggFallback acc sts r

/-- Python's `str.lower()` as applied to the short ASCII status tokens of
the power-supply interface: lowercase each character. -/
def strLower (s : String) : String := String.mk (s.data.map Char.toLower)

/-- Lines 177-188 of `battery_info`: overall status by priority
Charging > Discharging > Full, case-insensitively; otherwise the first
raw status string seen, and "Unknown" when none was seen. -/
def overallStatus (statuses : List String) : String :=
  if statuses.any (fun s => strLower s = "charging") then "Charging"
  else if statuses.any (fun s => strLower s = "discharging") then "Discharging"
  else if statuses.any (fun s => strLower s = "full") then "Full"
  else statuses.headD "Unknown"

/-- `battery_info` (lines 121-189), the spec's `aggregate`: raises
`noBatteryFound` on an empty device list; otherwise folds the devices and
returns `int(round(total_energy / total_capacity_weight))` when the weight
is positive, else the first raw capacity seen, else 0, together with the
priority-resolved status. -/
def battery_info (readings : List DeviceReading) : Except BatteryError (Int × String) :=
  if readings = [] then .error .noBatteryFound
  else
    let acc := readings.foldl aggDevice ⟨0, 0, [], []⟩
    let pct : Int :=
      if 0 < acc.totalWeight then pyRound (acc.totalEnergy / acc.totalWeight)
      else acc.capacities.headD 0
    .ok (pct, overallStatus acc.statuses)

/-- The notification the dispatcher is asked to deliver. -/
inductive NotifyKind
  | high
  | low
deriving DecidableEq, Repr

/-- The effect a decision has on the persisted state slot. -/
inductive StateOp
  | write (v : String)
  | clear
  | keep
deriving DecidableEq, Repr

/-- `decideStep` is the hysteresis block of `one_iteration`
(lines 324-351), the spec's `decide`, as a pure function of the reading,
the thresholds and the raw token returned by `read_state`:

* `status == "Charging" and pct >= high`: notify high and write
  "notified_high" unless the token is already "notified_high";
* `elif status == "Discharging" and pct <= low`: the low mirror image;
* `else`, when `low < pct < high`: clear the slot when the token is not
  "none";
* otherwise: no action and no slot effect. -/
def decideStep (pct low high : Int) (status current : String) : StateOp × Option NotifyKind :=
  if status = "Charging" ∧ high ≤ pct then
    if current ≠ "notified_high" then (.write "notified_high", some .high)
    else (.keep, none)
  else if status = "Discharging" ∧ pct ≤ low then
    if current ≠ "notified_low" then (.write "notified_low", some .low)
    else (.keep, none)
  else if low < pct ∧ pct < high then
    if current ≠ "none" then (.clear, none) else (.keep, none)
  else (.keep, none)

/-- `read_state` (lines 264-269): any failure to open or read the slot —
missing file, unreadable, corrupt encoding — is caught and yields the
token "none"; an existing readable file yields its (stripped) content.
The slot is `none` when no readable file exists. -/
def read_state (slot : Option String) : String := slot.getD "none"

/-- The token content of the slot after a decision's slot effect:
`write_state` replaces it, `clear_state` removes the file (so the next
`read_state` gives "none"), `keep` leaves the token as read. -/
def applyToken (op : StateOp) (current : String) : String :=
  match op with
  | .write v => v
  | .clear => "none"
  | .keep => current

/-- One decision at the token level: the token after the slot effect and
the emitted notification, threading the state of `one_iteration` across
polls. -/
def decideToken (pct low high : Int) (status current : String) :
    String × Option NotifyKind :=
  let r := decideStep pct low high status current
  (applyToken r.1 current, r.2)

/-- Runs `decideToken` over a list of (percent, status) readings, starting
from a token, returning each poll's emitted action and the token after it. -/
def runTrace (low high : Int) : List (Int × String) → String → List (Option NotifyKind × String)
  | [], _ => []
  | (p, s) :: rest, cur =>
      let r := decideToken p low high s cur
      (r.2, r.1) :: runTrace low high rest r.1

/-- The error that escapes `one_iteration`: `write_state` (lines 271-277)
has no exception handler, so a failed state write propagates.
`clear_state` (lines 279-283) catches everything and cannot fail. -/
inductive IterError
  | writeFailed
deriving DecidableEq, Repr

/-- The decision's effect on the persisted slot.  `writeFails` is the
environment condition under which `write_state` raises (e.g. unwritable
directory); the source does not catch that error.  `clear_state` never
fails, and `keep` touches nothing. -/
def applySlot (op : StateOp) (slot : Option String) (writeFails : Bool) :
    Except IterError (Option String) :=
  match op with
  | .write v => if writeFails then .error .writeFailed else .ok (some v)
  | .clear => .ok none
  | .keep => .ok slot

/-- `one_iteration` (lines 298-351) on a normal poll (no `force` flag):
an exception from `battery_info` is caught (lines 308-320) and the cycle
returns with the slot untouched and no action; otherwise the state is
read, the hysteresis block decides, and the slot effect is applied —
where only a failing write escapes. -/
def one_iteration (low high : Int) (battery : Except BatteryError (Int × String))
    (slot : Option String) (writeFails : Bool) :
    Except IterError (Option String × Option NotifyKind) :=
  match battery with
  | .error _ => .ok (slot, none)
  | .ok (pct, status) =>
      let current := read_state slot
      let r := decideStep pct low high status current
      match applySlot r.1 slot writeFails with
      | .error e => .error e
      | .ok slot2 => .ok (slot2, r.2)

/-- `daemon_loop` (lines 353-378) over a finite schedule of cycles, each
given by the outcome of that poll's battery read and whether that poll's
state write would fail: the `while` body only calls `one_iteration`, and
the surrounding `try`/`finally` has no `except` clause, so an error
escaping `one_iteration` terminates the loop. -/
def daemon_loop (low high : Int) :
    List (Except BatteryError (Int × String) × Bool) → Option String →
    Except IterError (Option String)
  | [], slot => .ok slot
  | (b, wf) :: rest, slot =>
      match one_iteration low high b slot wf with
      | .error e => .error e
      | .ok (slot2, _) => daemon_loop low high rest slot2

/-- Two persisted tokens are interchangeable for the hysteresis block when
they agree on being "notified_high" and on being "notified_low": the two
suppression tests are the only comparisons that influence the emitted
action. -/
def tokEquiv (s t : String) : Prop :=
  (s = "notified_high" ↔ t = "notified_high") ∧ (s = "notified_low" ↔ t = "notified_low")

instance (s t : String) : Decidable (tokEquiv s t) := by
  unfold tokEquiv
  infer_instance

/-- Whether a slot effect is a `write_state` call, the one slot effect
whose failure the source does not catch. -/
def StateOp.isWrite : StateOp → Bool
  | .write _ => true
  | _ => false

/-- Evaluates `pyRound` at a rational whose floor is known and whose
fractional part is below one half. -/
theorem pyRound_eq_of_floor (q : ℚ) (f : Int) (hf : ⌊q⌋ = f) (h : q - f < 1/2) :
    pyRound q = f := by
  unfold pyRound
  rw [hf, if_pos h]

/-- Claim C1: the spec states that for every reading sequence with at least
one entry whose energyFull is present and positive, `aggregate` returns a
percent in [0,100], and that percent is always clamped to [0,100].  The
code never clamps: a single device with energyNow = 200 and
energyFull = 100 — energyFull present and positive — yields percent = 200,
contradicting the function's own docstring "percentage:int 0..100". -/
theorem C1_percent_not_clamped :
    battery_info [⟨some 200, some 100, none, some "Charging"⟩] = .ok (200, "Charging") ∧
    ¬ ((0 : Int) ≤ 200 ∧ (200 : Int) ≤ 100) := by
  refine ⟨?_, by decide⟩
  have hacc : ([⟨some 200, some 100, none, some "Charging"⟩] : List DeviceReading).foldl
      aggDevice ⟨0, 0, [], []⟩ = ⟨20000, 100, ["Charging"], []⟩ := by
    simp only [List.foldl, aggDevice]
    norm_num
    all_goals decide
  unfold battery_info
  rw [if_neg (by simp : ¬(([⟨some 200, some 100, none, some "Charging"⟩] :
    List DeviceReading) = [])), hacc]
  show Except.ok (if (0 : ℚ) < 100 then pyRound ((20000 : ℚ) / 100)
    else ([] : List Int).headD 0, overallStatus ["Charging"]) = _
  rw [if_pos (by norm_num : (0 : ℚ) < 100),
    pyRound_eq_of_floor ((20000 : ℚ) / 100) 200 (by rw [Int.floor_eq_iff]; norm_num)
      (by norm_num)]
  rfl

/-- Claim C5: the spec states the aggregated status is always one of the
four values Charging, Discharging, Full, Unknown.  The code's final
fallback returns the first raw status string seen: a single device
reporting the real sysfs status "Not charging" makes `battery_info`
return that raw string, contradicting the docstring "Status values:
Charging, Discharging, Full, Unknown". -/
theorem C5_raw_status_leaks :
    battery_info [⟨none, none, some 50, some "Not charging"⟩] = .ok (50, "Not charging") ∧
    "Not charging" ∉ (["Charging", "Discharging", "Full", "Unknown"] : List String) := by
  refine ⟨?_, by decide⟩
  have hacc : ([⟨none, none, some 50, some "Not charging"⟩] : List DeviceReading).foldl
      aggDevice ⟨0, 0, [], []⟩ = ⟨50, 1, ["Not charging"], [50]⟩ := by
    simp only [List.foldl, aggDevice, aggFallback]
    norm_num
    all_goals decide
  unfold battery_info
  rw [if_neg (by simp : ¬(([⟨none, none, some 50, some "Not charging"⟩] :
    List DeviceReading) = [])), hacc]
  show Except.ok (if (0 : ℚ) < 1 then pyRound ((50 : ℚ) / 1)
    else ([50] : List Int).headD 0, overallStatus ["Not charging"]) = _
  rw [if_pos (by norm_num : (0 : ℚ) < 1),
    pyRound_eq_of_floor ((50 : ℚ) / 1) 50 (by rw [Int.floor_eq_iff]; norm_num)
      (by norm_num)]
  rfl

/-- Claim C2: with low = 20 and high = 80, starting from prior state
"none", the reading sequence (85,Charging), (85,Charging),
(50,Discharging), (15,Discharging), (15,Discharging), (50,Unknown),
threading each returned state into the next call, produces exactly the
actions NotifyHigh, none, none (state cleared to "none"), NotifyLow,
none, none (state cleared to "none"). -/
theorem C2_hysteresis_trace :
    runTrace 20 80
      [(85, "Charging"), (85, "Charging"), (50, "Discharging"),
       (15, "Discharging"), (15, "Discharging"), (50, "Unknown")] "none" =
      [(some .high, "notified_high"), (none, "notified_high"), (none, "none"),
       (some .low, "notified_low"), (none, "notified_low"), (none, "none")] := by
  rfl

/-- Claim C7: `battery_info` on the empty device sequence fails with
`noBatteryFound`, and returns a canonical reading for every non-empty
sequence. -/
theorem C7_empty_fails_nonempty_succeeds :
    battery_info [] = .error .noBatteryFound ∧
    ∀ rs : List DeviceReading, rs ≠ [] → ∃ v, battery_info rs = .ok v := by
  refine ⟨rfl, ?_⟩
  intro rs h
  match rs with
  | [] => exact absurd rfl h
  | r :: rest => exact ⟨_, rfl⟩

/-- Witness for C7 at the concrete one-device list whose every field is
absent. -/
theorem C7_empty_fails_nonempty_succeeds_witness :
    ([⟨none, none, none, none⟩] : List DeviceReading) ≠ [] ∧
    ∃ v, battery_info [(⟨none, none, none, none⟩ : DeviceReading)] = .ok v :=
  ⟨by decide, C7_empty_fails_nonempty_succeeds.2 _ (by decide)⟩

/-- Computes the aggregation fold of the two-device example of C8. -/
theorem twoDevice_fold :
    ([⟨some 50, some 100, none, none⟩, ⟨some 30, some 50, none, none⟩] :
        List DeviceReading).foldl aggDevice ⟨0, 0, [], []⟩ = ⟨8000, 150, [], []⟩ := by
  simp only [List.foldl, aggDevice]
  norm_num

/-- Computes `pyRound` at the two-device example's weighted mean 8000/150. -/
theorem twoDevice_round : pyRound ((8000 : ℚ) / 150) = 53 := by
  apply pyRound_eq_of_floor
  · rw [Int.floor_eq_iff]; norm_num
  · norm_num

/-- Claim C8, counterexample: aggregating (energyNow=50, energyFull=100)
with (energyNow=30, energyFull=50) gives percent 53, not the 73 the spec's
example states. -/
theorem C8_counterexample :
    battery_info [⟨some 50, some 100, none, none⟩, ⟨some 30, some 50, none, none⟩] =
      .ok (53, "Unknown") ∧ (53 : Int) ≠ 73 := by
  refine ⟨?_, by decide⟩
  unfold battery_info
  rw [if_neg (by simp : ¬(([⟨some 50, some 100, none, none⟩, ⟨some 30, some 50, none, none⟩] :
    List DeviceReading) = [])), twoDevice_fold]
  show Except.ok (if (0 : ℚ) < 150 then pyRound ((8000 : ℚ) / 150)
    else ([] : List Int).headD 0, overallStatus []) = _
  rw [if_pos (by norm_num : (0 : ℚ) < 150), twoDevice_round]
  rfl

/-- Claim C8, amended: the two devices aggregate to the energyFull-weighted
mean of the per-device percentages, round((50·100 + 60·50)/150) = 53. -/
theorem C8_weighted_aggregation :
    battery_info [⟨some 50, some 100, none, none⟩, ⟨some 30, some 50, none, none⟩] =
      .ok (pyRound ((50 * 100 + 60 * 50 : ℚ) / 150), "Unknown") ∧
    pyRound ((50 * 100 + 60 * 50 : ℚ) / 150) = 53 := by
  have harg : ((50 * 100 + 60 * 50 : ℚ) / 150) = (8000 : ℚ) / 150 := by norm_num
  have h53 : pyRound ((50 * 100 + 60 * 50 : ℚ) / 150) = 53 := by rw [harg, twoDevice_round]
  refine ⟨?_, h53⟩
  rw [h53]
  unfold battery_info
  rw [if_neg (by simp : ¬(([⟨some 50, some 100, none, none⟩, ⟨some 30, some 50, none, none⟩] :
    List DeviceReading) = [])), twoDevice_fold]
  show Except.ok (if (0 : ℚ) < 150 then pyRound ((8000 : ℚ) / 150)
    else ([] : List Int).headD 0, overallStatus []) = _
  rw [if_pos (by norm_num : (0 : ℚ) < 150), twoDevice_round]
  rfl

/-- Claim C3: calling `decide` twice with the same reading, threading the
returned state into the second call's prior state, never emits an action
on the second call. -/
theorem C3_decide_idempotent (pct low high : Int) (status current : String)
    (h : low < high) :
    (decideStep pct low high status (decideToken pct low high status current).1).2 = none := by
  unfold decideToken
  by_cases hA : status = "Charging" ∧ high ≤ pct
  · by_cases hc : current = "notified_high" <;>
      simp [decideStep, applyToken, hA, hc]
  · by_cases hB : status = "Discharging" ∧ pct ≤ low
    · by_cases hc : current = "notified_low" <;>
        simp [decideStep, applyToken, hA, hB, hc]
    · by_cases hC : low < pct ∧ pct < high
      · by_cases hc : current = "none" <;>
          simp [decideStep, applyToken, hA, hB, hC, hc]
      · simp [decideStep, applyToken, hA, hB, hC]

/-- Witness for C3 at low = 20 < high = 80, a high crossing from prior
state "none". -/
theorem C3_decide_idempotent_witness :
    (20 : Int) < 80 ∧
    (decideStep 85 20 80 "Charging" (decideToken 85 20 80 "Charging" "none").1).2 = none :=
  ⟨by decide, C3_decide_idempotent 85 20 80 "Charging" "none" (by decide)⟩

/-- Claim C9: in the two suppressed cases (already "notified_high" at a
high crossing, already "notified_low" at a low crossing) and in the
any-other-combination case (neither crossing matched and the reading not
strictly inside the neutral band), the decision neither writes nor clears
the state slot and the token is unchanged. -/
theorem C9_frame (pct low high : Int) (status current : String)
    (h : (status = "Charging" ∧ high ≤ pct ∧ current = "notified_high") ∨
         (status = "Discharging" ∧ pct ≤ low ∧ current = "notified_low") ∨
         (¬(status = "Charging" ∧ high ≤ pct) ∧ ¬(status = "Discharging" ∧ pct ≤ low) ∧
           ¬(low < pct ∧ pct < high))) :
    decideStep pct low high status current = (.keep, none) ∧
    applyToken (decideStep pct low high status current).1 current = current := by
  have hstep : decideStep pct low high status current = (.keep, none) := by
    rcases h with ⟨h1, h2, h3⟩ | ⟨h1, h2, h3⟩ | ⟨h1, h2, h3⟩
    · simp [decideStep, h1, h2, h3]
    · simp [decideStep, h1, h2, h3]
    · simp [decideStep, h1, h2, h3]
  exact ⟨hstep, by rw [hstep]; rfl⟩

/-- Witness for C9 in the any-other-combination case: percent 85 at or
beyond high = 80, but status Unknown, prior token "none". -/
theorem C9_frame_witness :
    (¬(("Unknown" : String) = "Charging" ∧ (80 : Int) ≤ 85) ∧
     ¬(("Unknown" : String) = "Discharging" ∧ (85 : Int) ≤ 20) ∧
     ¬((20 : Int) < 85 ∧ (85 : Int) < 80)) ∧
    decideStep 85 20 80 "Unknown" "none" = (.keep, none) ∧
    applyToken (decideStep 85 20 80 "Unknown" "none").1 "none" = "none" :=
  ⟨⟨by decide, by decide, by decide⟩,
   C9_frame 85 20 80 "Unknown" "none" (Or.inr (Or.inr ⟨by decide, by decide, by decide⟩))⟩

/-- Claim C10, counterexample: with the corrupt persisted token "garbage",
the reading percent 85 with status Unknown at thresholds 20/80 falls in
the untouched branch, so the slot still reads back "garbage" afterwards,
while the same run from a missing slot reads back "none"; the emitted
action is the same, but the read-back values differ, refuting the claim
that the slot reads back the same value. -/
theorem C10_counterexample :
    one_iteration 20 80 (.ok (85, "Unknown")) (some "garbage") false =
      .ok (some "garbage", none) ∧
    one_iteration 20 80 (.ok (85, "Unknown")) none false = .ok (none, none) ∧
    read_state (some "garbage") ≠ read_state none :=
  ⟨rfl, rfl, by decide⟩

/-- Claim C10, amended: from a token that is neither "notified_high" nor
"notified_low", the decision emits the same action as from prior state
"none", and the resulting tokens agree on being "notified_high" and on
being "notified_low", so every later decision also behaves the same;
the raw slot content may differ (the corrupt token stays in place in the
untouched branch). -/
theorem C10_corrupt_token_equiv_none (pct low high : Int) (status c : String)
    (h1 : c ≠ "notified_high") (h2 : c ≠ "notified_low") :
    (decideToken pct low high status c).2 = (decideToken pct low high status "none").2 ∧
    tokEquiv (decideToken pct low high status c).1 (decideToken pct low high status "none").1 := by
  by_cases hA : status = "Charging" ∧ high ≤ pct
  · simp [decideToken, decideStep, applyToken, hA, h1, tokEquiv]
  · by_cases hB : status = "Discharging" ∧ pct ≤ low
    · simp [decideToken, decideStep, applyToken, hA, hB, h2, tokEquiv]
    · by_cases hC : low < pct ∧ pct < high
      · by_cases hc : c = "none" <;>
          simp [decideToken, decideStep, applyToken, hA, hB, hC, hc, tokEquiv]
      · simp [decideToken, decideStep, applyToken, hA, hB, hC, tokEquiv, h1, h2]

/-- Witness for C10 at the corrupt token "garbage" and a high crossing:
the notification is still emitted. -/
theorem C10_corrupt_token_equiv_none_witness :
    (("garbage" : String) ≠ "notified_high" ∧ ("garbage" : String) ≠ "notified_low") ∧
    (decideToken 85 20 80 "Charging" "garbage").2 =
      (decideToken 85 20 80 "Charging" "none").2 ∧
    tokEquiv (decideToken 85 20 80 "Charging" "garbage").1
      (decideToken 85 20 80 "Charging" "none").1 :=
  ⟨⟨by decide, by decide⟩,
   C10_corrupt_token_equiv_none 85 20 80 "Charging" "garbage" (by decide) (by decide)⟩

/-- Claim C4, counterexample: with prior slot absent, thresholds 20/80 and
the reading 85% Charging, a failing state write makes the decide step of
`one_iteration` propagate an error, refuting the claim that a write
failure is logged and ignored and that decide never fails. -/
theorem C4_counterexample :
    one_iteration 20 80 (.ok (85, "Charging")) none true = .error .writeFailed := rfl

/-- Claim C4, amended: a failure to read the persisted state is treated as
prior state "none" and never propagates, and the decide step fails exactly
when it attempts a state write and that write fails — a write failure is
not caught and propagates out of the decide step. -/
theorem C4_decide_failure (low high : Int) (battery : Except BatteryError (Int × String))
    (slot : Option String) (writeFails : Bool) :
    read_state none = "none" ∧
    (one_iteration low high battery slot writeFails = .error .writeFailed ↔
      writeFails = true ∧ ∃ pct status, battery = .ok (pct, status) ∧
        ((decideStep pct low high status (read_state slot)).1).isWrite = true) := by
  refine ⟨rfl, ?_⟩
  cases battery with
  | error e => simp [one_iteration]
  | ok v =>
      obtain ⟨pct, status⟩ := v
      simp only [one_iteration]
      cases hop : (decideStep pct low high status (read_state slot)).1 with
      | write v =>
          cases writeFails with
          | false => simp [applySlot, hop, StateOp.isWrite]
          | true =>
              simp only [applySlot, hop]
              simp only [Except.error.injEq, true_iff, eq_self_iff_true, true_and]
              constructor
              · intro _
                exact ⟨pct, status, rfl, by rw [hop]; rfl⟩
              · intro _
                rfl
      | clear => simp [applySlot, hop, StateOp.isWrite]
      | keep => simp [applySlot, hop, StateOp.isWrite]

/-- A cycle whose state write does not fail always completes: the only
uncaught error in `one_iteration` is the state write. -/
theorem one_iteration_ok_of_write_ok (low high : Int)
    (battery : Except BatteryError (Int × String)) (slot : Option String) :
    ∃ out, one_iteration low high battery slot false = .ok out := by
  cases battery with
  | error e => exact ⟨(slot, none), rfl⟩
  | ok v =>
      obtain ⟨pct, status⟩ := v
      simp only [one_iteration]
      cases hop : (decideStep pct low high status (read_state slot)).1 <;>
        simp [applySlot, hop]

/-- Claim C6, counterexample: a schedule of two cycles whose first cycle
has a failing state write on a high crossing terminates the whole loop
with an error instead of skipping the cycle and proceeding. -/
theorem C6_counterexample :
    daemon_loop 20 80 [(.ok (85, "Charging"), true), (.ok (50, "Unknown"), false)] none =
      .error .writeFailed := rfl

/-- Claim C6, amended: every error raised while reading or aggregating the
battery is caught and the cycle skipped, and the loop runs the whole
schedule whenever no cycle's state write fails; an uncaught state-write
failure, however, terminates the loop. -/
theorem C6_loop_survives_read_errors (low high : Int)
    (cycles : List (Except BatteryError (Int × String) × Bool)) (slot : Option String)
    (h : ∀ c ∈ cycles, c.2 = false) :
    ∃ s, daemon_loop low high cycles slot = .ok s := by
  induction cycles generalizing slot with
  | nil => exact ⟨slot, rfl⟩
  | cons c rest ih =>
      obtain ⟨b, wf⟩ := c
      have hwf : wf = false := h (b, wf) (by simp)
      subst hwf
      obtain ⟨⟨slot2, act⟩, hout⟩ := one_iteration_ok_of_write_ok low high b slot
      obtain ⟨s, hs⟩ := ih slot2 (fun c hc => h c (List.mem_cons_of_mem _ hc))
      exact ⟨s, by simp [daemon_loop, hout, hs]⟩

/-- Witness for C6: a two-cycle schedule whose first cycle's battery read
raises and whose writes succeed completes with an `ok` result. -/
theorem C6_loop_survives_read_errors_witness :
    (∀ c ∈ ([(.error .noBatteryFound, false), (.ok (85, "Charging"), false)] :
        List (Except BatteryError (Int × String) × Bool)), c.2 = false) ∧
    ∃ s, daemon_loop 20 80
      [(.error .noBatteryFound, false), (.ok (85, "Charging"), false)] none = .ok s :=
  ⟨by decide,
   C6_loop_survives_read_errors 20 80
     [(.error .noBatteryFound, false), (.ok (85, "Charging"), false)] none (by decide)⟩

end BatteryGuardian
